import Mathlib

/-!
Verification of the multifactorriskservice synchronization core.

This file gives a shallow embedding of the Go source under `src/` — the
Record/Study model (`models/record.go`, `models/study.go`), the refresh
client (`client/client.go`) and the pie retrieval handler
(`server/routes.go`) — and proves the spec's claims about it.

Machine integers are modelled as `Int`/`Nat` (all values involved are tiny:
risk scores 1–4, list lengths, HTTP status codes), effects are modelled by
explicit state passing, the FHIR server is an oracle
`String → HTTPResult` mapping a request URL to its outcome, and the
reconciliation collaborator is an oracle returning an optional error.
-/

/-- The Go `interface{}`-typed `study_id` field of a REDCap record: JSON
decoding yields a string or a number (`float64` in Go).  The numeric ids in
the data are integral, so the numeric case is modelled as `Int`;
`fmt.Sprint` renders an integral float with no decimal point, matching
`toString (n : Int)`. -/
inductive StudyIDVal
  | str (s : String)
  | num (n : Int)
deriving DecidableEq, Repr

/-- Go `fmt.Sprint` on the `interface{}` study id (the `%v` verb). -/
def StudyIDVal.sprint : StudyIDVal → String
  | .str s => s
  | .num n => toString n

/-- Go `fmt`'s `%s` verb on the `interface{}` study id: a string prints
as itself; a non-string value v prints as `%!s(float64=v)`. -/
def StudyIDVal.sprintfS : StudyIDVal → String
  | .str s => s
  | .num n => "%!s(float64=" ++ toString n ++ ")"

/-- Model of `models.Record` — one REDCap survey row (`models/record.go`). -/
structure Record where
  StudyID : StudyIDVal
  EventName : String
  RiskFactorDate : String
  ClinicalRisk : String
  FunctionalRisk : String
  PsychosocialRisk : String
  UtilizationRisk : String
  PerceivedRisk : String
deriving DecidableEq, Repr

/-- Model of `Record.StudyIDString` — `fmt.Sprint(r.StudyID)`. -/
def Record.StudyIDString (r : Record) : String :=
  r.StudyID.sprint

/-- Value of a decimal digit character. -/
def digitVal (c : Char) : Nat := c.toNat - 48

/-- Go `isLeap` (package `time`). -/
def isLeapYear (y : Nat) : Bool :=
  y % 4 == 0 && (y % 100 != 0 || y % 400 == 0)

/-- Go `daysIn` (package `time`): days in a month, 0 for an invalid month. -/
def daysInMonth (y m : Nat) : Nat :=
  match m with
  | 1 => 31
  | 2 => if isLeapYear y then 29 else 28
  | 3 => 31
  | 4 => 30
  | 5 => 31
  | 6 => 30
  | 7 => 31
  | 8 => 31
  | 9 => 30
  | 10 => 31
  | 11 => 30
  | 12 => 31
  | _ => 0

/-- Go `time.ParseInLocation("2006-01-02", s, time.Local)`: exactly four
year digits, a dash, two month digits, a dash, two day digits, nothing
more; the month must be 1–12 and the day valid for that month.  The
resulting local-midnight time is modelled by its calendar date, encoded as
the serial number y*10000 + m*100 + d — for the fixed pattern this
encoding is injective and its numeric order is exactly the chronological
order of the corresponding local-midnight instants. -/
def parseDate (s : String) : Option Nat :=
  match s.data with
  | [y1, y2, y3, y4, h1, m1, m2, h2, d1, d2] =>
    if y1.isDigit && y2.isDigit && y3.isDigit && y4.isDigit &&
       h1 == '-' && m1.isDigit && m2.isDigit &&
       h2 == '-' && d1.isDigit && d2.isDigit then
      let y := ((digitVal y1 * 10 + digitVal y2) * 10 + digitVal y3) * 10 + digitVal y4
      let m := digitVal m1 * 10 + digitVal m2
      let d := digitVal d1 * 10 + digitVal d2
      if 1 ≤ m && m ≤ 12 && 1 ≤ d && d ≤ daysInMonth y m then
        some (y * 10000 + m * 100 + d)
      else
        none
    else
      none
  | _ => none

/-- Model of `Record.RiskFactorDateTime` — parses `rf_date` with layout
`2006-01-02` in the local timezone. -/
def Record.RiskFactorDateTime (r : Record) : Option Nat :=
  parseDate r.RiskFactorDate

/-- Model of `Record.IsRiskFactorsComplete` — date and all five scores non-empty. -/
def Record.IsRiskFactorsComplete (r : Record) : Bool :=
  r.RiskFactorDate != "" && r.ClinicalRisk != "" && r.FunctionalRisk != "" &&
    r.PsychosocialRisk != "" && r.UtilizationRisk != "" && r.PerceivedRisk != ""

/-- All characters are decimal digits and there is at least one. -/
def parseDigits (cs : List Char) : Option Nat :=
  match cs with
  | [] => none
  | _ =>
    if cs.all Char.isDigit then
      some (cs.foldl (fun acc c => acc * 10 + digitVal c) 0)
    else
      none

/-- Go `strconv.Atoi`: optional sign, then one or more decimal digits and
nothing else.  (Go additionally rejects values outside the machine `int`
range; the scores here are single digits, so overflow is elided.) -/
def atoi (s : String) : Option Int :=
  match s.data with
  | '+' :: rest => (parseDigits rest).map Int.ofNat
  | '-' :: rest => (parseDigits rest).map (fun n => -(n : Int))
  | cs => (parseDigits cs).map Int.ofNat

/-- Model of `plugin.Slice` of the riskservice collaborator — one pie slice. -/
structure Slice where
  Name : String
  Weight : Int
  MaxValue : Int
  Value : Int
deriving DecidableEq, Repr

/-- Model of `plugin.Pie` — the visualization artifact.  The fresh BSON ObjectId
(`bson.NewObjectId()`) and creation timestamp (`time.Now()`) are effects
with no bearing on any claim and are elided from the value model. -/
structure Pie where
  Patient : String
  Slices : List Slice
deriving DecidableEq, Repr

/-- Model of `newSlice` (`models/record.go`). -/
def newSlice (name score : String) : Except String Slice :=
  match atoi score with
  | none => .error ("Invalid " ++ name ++ ": " ++ score)
  | some value => .ok { Name := name, Value := value, Weight := 25, MaxValue := 4 }

/-- Model of `Record.ToPie` (`models/record.go`). -/
def Record.ToPie (r : Record) (patientURL : String) : Except String Pie :=
  if !r.IsRiskFactorsComplete then
    .error "Cannot create a pie with incomplete risk factors"
  else
    match newSlice "Clinical Risk" r.ClinicalRisk with
    | .error e => .error e
    | .ok crSlice =>
      match newSlice "Functional and Environmental Risk" r.FunctionalRisk with
      | .error e => .error e
      | .ok frSlice =>
        match newSlice "Psychosocial and Mental Health Risk" r.PsychosocialRisk with
        | .error e => .error e
        | .ok prSlice =>
          match newSlice "Utilization Risk" r.UtilizationRisk with
          | .error e => .error e
          | .ok urSlice =>
            .ok { Patient := patientURL, Slices := [crSlice, frSlice, prSlice, urSlice] }

/-- Model of `plugin.RiskServiceCalculationResult` of the riskservice collaborator.
`AsOf` is the parsed local-midnight date (serial encoding, see
`parseDate`); `ProbabilityDecimal` is never set by this repository and is
elided. -/
structure RiskServiceCalculationResult where
  AsOf : Nat
  Score : Option Int
  Pie : Pie
deriving DecidableEq, Repr

/-- The `result.Score` loop of `Record.ToRiskServiceCalculationResult`:
`Score` starts nil and is re-pointed at any strictly larger slice value
(Go keeps a pointer into the slice; value-wise this is a running max that
keeps the first maximal slice in category order). -/
def scoreStep (acc : Option Int) (s : Slice) : Option Int :=
  match acc with
  | none => some s.Value
  | some m => if m < s.Value then some s.Value else acc

/-- The score loop over all slices: `Score` starts nil. -/
def scoreOfSlices (slices : List Slice) : Option Int :=
  slices.foldl scoreStep none

/-- Model of `Record.ToRiskServiceCalculationResult` (`models/record.go`).  Go's
date-parse error text is abbreviated; no claim inspects it. -/
def Record.ToRiskServiceCalculationResult (r : Record) (patientURL : String) :
    Except String RiskServiceCalculationResult :=
  match r.ToPie patientURL with
  | .error e => .error e
  | .ok pie =>
    match r.RiskFactorDateTime with
    | none => .error ("parsing time " ++ r.RiskFactorDate ++ " as 2006-01-02: cannot parse")
    | some asOf => .ok { AsOf := asOf, Score := scoreOfSlices pie.Slices, Pie := pie }

/-- Model of `models.Study` (`models/study.go`): `new(Study)` is `⟨"", []⟩`. -/
structure Study where
  ID : String
  Records : List Record
deriving DecidableEq, Repr

/-- Model of `Study.AddRecord` (`models/study.go`): the Go method mutates the
receiver through a pointer and returns an error; modelled as
(optional error, updated study).  The mismatch check is gated on
`r.StudyID != ""` — an `interface{}` compared with the string `""`, true
unless the dynamic value is exactly the empty string.  On the error path
Go returns before the append, leaving the study untouched. -/
def Study.AddRecord (s : Study) (r : Record) : Option String × Study :=
  let checked : Option String × Study :=
    if r.StudyID ≠ StudyIDVal.str "" then
      if s.ID = "" then
        (none, { s with ID := r.StudyIDString })
      else if s.ID ≠ r.StudyIDString then
        (some ("Record with study ID " ++ r.StudyID.sprintfS ++
               " cannot be added to study with ID " ++ s.ID), s)
      else
        (none, s)
    else
      (none, s)
  match checked with
  | (some e, s1) => (some e, s1)
  | (none, s1) => (none, { s1 with Records := s1.Records ++ [r] })

/-- Conversion success: complete, all four category scores parse as
integers, and the date parses.  (`Record.ToRiskServiceCalculationResult`
returns `.ok` exactly on these records — see `convertible_iff_ok`.) -/
def Record.convertible (r : Record) : Bool :=
  r.IsRiskFactorsComplete && (atoi r.ClinicalRisk).isSome &&
    (atoi r.FunctionalRisk).isSome && (atoi r.PsychosocialRisk).isSome &&
    (atoi r.UtilizationRisk).isSome && (parseDate r.RiskFactorDate).isSome

/-- Modelled from the spec: `plugin.SortResultsByAsOfDate` lives in the
external riskservice collaborator, not under `src/`; per the spec it
sorts the results ascending by `asOf`, ties stable by input order.
`List.insertionSort` with the non-strict key order is such a stable
sort. -/
def SortResultsByAsOfDate (results : List RiskServiceCalculationResult) :
    List RiskServiceCalculationResult :=
  results.insertionSort (fun a b => a.AsOf ≤ b.AsOf)

/-- Model of `Study.ToRiskServiceCalculationResults` (`models/study.go`): convert
every record, silently dropping the ones that fail, then sort by `AsOf`. -/
def Study.ToRiskServiceCalculationResults (s : Study) (patientURL : String) :
    List RiskServiceCalculationResult :=
  SortResultsByAsOfDate
    (s.Records.foldl
      (fun results r =>
        match r.ToRiskServiceCalculationResult patientURL with
        | .ok result => results ++ [result]
        | .error _ => results)
      [])

/-- Body of an HTTP response from the FHIR server, as seen by the JSON
decoder: either it fails to decode as a `fhir.Bundle`, or it yields the
bundle's patient-resource ids plus the bundle's pagination link — a
`next` URL when one is present.  (`fhir.Bundle` carries its links; the
client code decodes them but never reads them.) -/
inductive BundleBody
  | malformed (cause : String)
  | bundle (patientIDs : List String) (next : Option String)
deriving DecidableEq, Repr

/-- Outcome of one HTTP interaction of the client, as an oracle value:
request construction failed, transport failed, or a response arrived with
a status code, status text, and body. -/
inductive HTTPResult
  | reqError (cause : String)
  | netError (cause : String)
  | response (statusCode : Nat) (status : String) (body : BundleBody)
deriving DecidableEq, Repr

/-- Error text when `http.NewRequest` fails (`client/client.go`). -/
def reqErrorMsg (sid cause : String) : String :=
  "Couldn't create HTTP request for querying patient with Study ID: " ++ sid ++
    ".  Error: " ++ cause

/-- Error text when `http.DefaultClient.Do` fails. -/
def netErrorMsg (sid cause : String) : String :=
  "Couldn't query FHIR server for patient with Study ID: " ++ sid ++
    ".  Error: " ++ cause

/-- Error text for a non-200 response status. -/
def statusErrorMsg (code : Nat) (status sid : String) : String :=
  "Received HTTP " ++ toString code ++ " " ++ status ++
    " from FHIR server when querying patient with Study ID: " ++ sid ++ "."

/-- Error text when decoding the bundle fails. -/
def decodeErrorMsg (sid cause : String) : String :=
  "Couldn't properly decode results from patient query with Study ID: " ++ sid ++
    ".  Error: " ++ cause

/-- Error text for zero patient matches. -/
def subjectNotFoundMsg (sid : String) : String :=
  "Couldn't find patient with Study ID " ++ sid

/-- Error text for more than one patient match. -/
def ambiguousSubjectMsg (sid : String) (count : Nat) : String :=
  "Found too many patients (" ++ toString count ++ ") with Study ID " ++ sid

/-- The identity-resolution steps of `PostRiskAssessments`
(`client/client.go` lines 77–112) applied to the outcome of the one GET
the code issues: check the transport, then the status code, then decode,
then require exactly one matching patient.  The bundle's `next` link is
decoded but never consulted. -/
def resolveResponse (resp : HTTPResult) (sid : String) : Except String String :=
  match resp with
  | .reqError cause => .error (reqErrorMsg sid cause)
  | .netError cause => .error (netErrorMsg sid cause)
  | .response code status body =>
    if code ≠ 200 then
      .error (statusErrorMsg code status sid)
    else
      match body with
      | .malformed cause => .error (decodeErrorMsg sid cause)
      | .bundle patientIDs _next =>
        match patientIDs with
        | [] => .error (subjectNotFoundMsg sid)
        | [patientID] => .ok patientID
        | ids => .error (ambiguousSubjectMsg sid ids.length)

/-- The query URL built by the client: one GET for patients whose
identifier equals the study ID. -/
def patientQueryURL (fhirEndpoint sid : String) : String :=
  fhirEndpoint ++ "/Patient?identifier=" ++ sid

/-- Identity resolution as performed by `PostRiskAssessments`: a single
GET of `patientQueryURL`, resolved from that sole response. -/
def resolvePatient (env : String → HTTPResult) (fhirEndpoint sid : String) :
    Except String String :=
  resolveResponse (env (patientQueryURL fhirEndpoint sid)) sid

/-- Model of `client.Result` (`client/client.go`) — one SyncResult.
`RiskAssessmentCount` is a `len`, hence `Nat`. -/
structure Result where
  StudyID : String
  FHIRPatientID : String
  RiskAssessmentCount : Nat
  Error : Option String
deriving DecidableEq, Repr

/-- One iteration of the `PostRiskAssessments` loop for one study: every
failure branch appends a Result carrying the error and `continue`s; on
success the patient id is recorded, the study is converted, and the
reconciliation oracle (`service.UpdateRiskAssessmentsAndPies` of the
external riskservice collaborator, taking the patient id and the
calculation results) either fails — error recorded, count left zero — or
succeeds — count set to the number of calculation results. -/
def processStudy (env : String → HTTPResult)
    (recon : String → List RiskServiceCalculationResult → Option String)
    (fhirEndpoint : String) (study : Study) : Result :=
  let base : Result :=
    { StudyID := study.ID, FHIRPatientID := "", RiskAssessmentCount := 0, Error := none }
  match resolvePatient env fhirEndpoint study.ID with
  | .error e => { base with Error := some e }
  | .ok patientID =>
    let calcResults :=
      study.ToRiskServiceCalculationResults (fhirEndpoint ++ "/Patient/" ++ patientID)
    match recon patientID calcResults with
    | some e => { base with FHIRPatientID := patientID, Error := some e }
    | none =>
      { base with FHIRPatientID := patientID, RiskAssessmentCount := calcResults.length }

/-- The `for _, study := range studies` loop of `PostRiskAssessments`:
each iteration appends exactly one Result (every error branch appends and
`continue`s) and no iteration returns early. -/
def postLoop (env : String → HTTPResult)
    (recon : String → List RiskServiceCalculationResult → Option String)
    (fhirEndpoint : String) : List Study → List Result → List Result
  | [], results => results
  | study :: rest, results =>
    postLoop env recon fhirEndpoint rest (results ++ [processStudy env recon fhirEndpoint study])

/-- Model of `PostRiskAssessments` (`client/client.go`).  A Go map iterates each
entry exactly once in unspecified order, so the StudyMap's values are
modelled as the list of studies in iteration order. -/
def PostRiskAssessments (env : String → HTTPResult)
    (recon : String → List RiskServiceCalculationResult → Option String)
    (fhirEndpoint : String) (studies : List Study) : List Result :=
  postLoop env recon fhirEndpoint studies []

/-- A study's refresh fails at some per-study stage: the identity query
fails (request construction, transport, non-200 status, decode failure,
zero matches, or multiple matches), or reconciliation reports an error. -/
def studyFails (env : String → HTTPResult)
    (recon : String → List RiskServiceCalculationResult → Option String)
    (fhirEndpoint : String) (study : Study) : Bool :=
  match resolvePatient env fhirEndpoint study.ID with
  | .error _ => true
  | .ok patientID =>
    (recon patientID
      (study.ToRiskServiceCalculationResults (fhirEndpoint ++ "/Patient/" ++ patientID))).isSome

/-- Modelled from the spec: the spec's identity-resolution interface
(§6) says "pagination is followed via a \x22next\x22 link until exhausted".
Collects the patient ids of a page and of every page reached through
`next` links; `fuel` bounds the number of pages followed (`none` when the
fuel runs out or a page fails). -/
def collectBundleEntries (env : String → HTTPResult) :
    Nat → String → Option (List String)
  | 0, _ => none
  | fuel + 1, url =>
    match env url with
    | .response 200 _ (.bundle patientIDs none) => some patientIDs
    | .response 200 _ (.bundle patientIDs (some next)) =>
      match collectBundleEntries env fuel next with
      | some more => some (patientIDs ++ more)
      | none => none
    | _ => none

/-- Modelled from the spec: identity resolution as the spec describes
it — follow the pagination of the subject query until exhausted, then
require exactly one match. -/
def resolvePatientSpec (env : String → HTTPResult) (fhirEndpoint sid : String)
    (fuel : Nat) : Except String String :=
  match collectBundleEntries env fuel (patientQueryURL fhirEndpoint sid) with
  | none => .error (netErrorMsg sid "upstream unavailable")
  | some [] => .error (subjectNotFoundMsg sid)
  | some [patientID] => .ok patientID
  | some ids => .error (ambiguousSubjectMsg sid ids.length)

/-- Is this character a hexadecimal digit (as accepted by Go's
`encoding/hex`)? -/
def isHexChar (c : Char) : Bool :=
  c.isDigit || ('a' ≤ c && c ≤ 'f') || ('A' ≤ c && c ≤ 'F')

/-- Model of `bson.IsObjectIdHex` (gopkg.in/mgo.v2/bson): exactly 24 characters,
all hexadecimal. -/
def IsObjectIdHex (s : String) : Bool :=
  s.length == 24 && s.data.all isHexChar

/-- Response of the pie retrieval endpoint (`server/routes.go`,
`RegisterPieHandler`). -/
inductive PieResponse
  | ok (pie : Pie)
  | notFound
  | badRequest (msg : String)
deriving DecidableEq, Repr

/-- The `GET /pies/:id` handler (`server/routes.go`): a malformed id is
answered 400 Bad Request; a well-formed id is looked up in the pie
collection — found pies are returned with 200, absent ones answered 404.
The Mongo collection is modelled as a lookup oracle keyed by the id's hex
string. -/
def getPieHandler (store : String → Option Pie) (id : String) : PieResponse :=
  if IsObjectIdHex id then
    match store id with
    | some pie => .ok pie
    | none => .notFound
  else
    .badRequest "Bad ID format for requested Pie. Should be a BSON Id"

/-- Does a pie retrieval response signal that no artifact was found
(i.e. carry no pie)? -/
def signalsNoArtifact : PieResponse → Bool
  | .ok _ => false
  | .notFound => true
  | .badRequest _ => true

/-- Is an `Except` value a success?  (`Except.isOk` under a local name.) -/
def exceptOk {α : Type} (e : Except String α) : Bool :=
  match e with
  | .ok _ => true
  | .error _ => false

/-- A FHIR oracle whose every patient query returns an empty bundle. -/
def fixtureEnvNotFound : String → HTTPResult :=
  fun _ => .response 200 "200 OK" (.bundle [] none)

/-- A reconciliation oracle that always succeeds. -/
def fixtureRecon : String → List RiskServiceCalculationResult → Option String :=
  fun _ _ => none

/-- A study with id "1" and no records. -/
def fixtureStudy1 : Study := { ID := "1", Records := [] }

/-- An empty-study-id record (otherwise blank survey row). -/
def emptyIDRecord : Record :=
  { StudyID := .str "", EventName := "initial_arm_1", RiskFactorDate := "",
    ClinicalRisk := "", FunctionalRisk := "", PsychosocialRisk := "",
    UtilizationRisk := "", PerceivedRisk := "" }

/-- A record carrying study id "2". -/
def studyID2Record : Record :=
  { StudyID := .str "2", EventName := "initial_arm_1", RiskFactorDate := "",
    ClinicalRisk := "", FunctionalRisk := "", PsychosocialRisk := "",
    UtilizationRisk := "", PerceivedRisk := "" }

/-- The key order used by the sort: ascending `AsOf`. -/
def asOfLe (a b : RiskServiceCalculationResult) : Prop := a.AsOf ≤ b.AsOf

instance : DecidableRel asOfLe := fun a b => Nat.decLe a.AsOf b.AsOf

instance : IsTotal RiskServiceCalculationResult asOfLe :=
  ⟨fun a b => Nat.le_total a.AsOf b.AsOf⟩

instance : IsTrans RiskServiceCalculationResult asOfLe :=
  ⟨fun _ _ _ => Nat.le_trans⟩

/-- A complete record whose clinical score is not an integer. -/
def badScoreRecord : Record :=
  { StudyID := .str "1", EventName := "initial_arm_1", RiskFactorDate := "2015-12-07",
    ClinicalRisk := "x", FunctionalRisk := "2", PsychosocialRisk := "1",
    UtilizationRisk := "3", PerceivedRisk := "3" }

/-- The study holding only that record. -/
def badScoreStudy : Study := { ID := "1", Records := [badScoreRecord] }

/-- The first fixture record of `fixtures/example_records.json` (study 1,
2015-12-07, scores 3/2/1/3, perceived 3). -/
def fixtureRecord0 : Record :=
  { StudyID := .num 1, EventName := "initial_arm_1", RiskFactorDate := "2015-12-07",
    ClinicalRisk := "3", FunctionalRisk := "2", PsychosocialRisk := "1",
    UtilizationRisk := "3", PerceivedRisk := "3" }

/-- A classifier of the resolver's error messages, by the character at
index 9 — inside the constant lead-in of every message family, before any
interpolated data.  0 = subject-not-found, 1 = ambiguous-subject,
2 = upstream-unavailable. -/
def resolveErrorKind (msg : String) : Nat :=
  let c := msg.data.getD 9 '?'
  if c = 'f' then 0
  else if c = ' ' then 1
  else 2

/-- A two-page FHIR oracle: the patient query for study "1" answers one
match plus a "next" link; the next page holds one further match. -/
def twoPageEnv : String → HTTPResult := fun url =>
  if url = "http://fhir/Patient?identifier=1" then
    .response 200 "200 OK" (.bundle ["p1"] (some "http://fhir/Patient?identifier=1&page=2"))
  else if url = "http://fhir/Patient?identifier=1&page=2" then
    .response 200 "200 OK" (.bundle ["p2"] none)
  else
    .netError "no route"

/-- A fixture pie. -/
def fixturePie : Pie :=
  { Patient := "http://fhir/Patient/56fd63cdac1c5d77f6f695a1",
    Slices := [{ Name := "Clinical Risk", Weight := 25, MaxValue := 4, Value := 3 }] }

/-- A store holding `fixturePie` under one well-formed 24-hex id. -/
def fixtureStore : String → Option Pie := fun id =>
  if id = "56fd63cdac1c5d77f6f695b0" then some fixturePie else none

theorem postLoop_eq (env : String → HTTPResult)
    (recon : String → List RiskServiceCalculationResult → Option String)
    (ep : String) :
    ∀ (studies : List Study) (acc : List Result),
      postLoop env recon ep studies acc = acc ++ studies.map (processStudy env recon ep)
  | [], acc => by simp [postLoop]
  | st :: rest, acc => by
    simp [postLoop, postLoop_eq env recon ep rest]

/-- C2: the per-study phase returns exactly one SyncResult per distinct
study in the map — the result list has one entry per study of the map (a
Go map iterates each distinct key exactly once), in iteration order, no
matter how many studies fail. -/
theorem c2_one_result_per_study (env : String → HTTPResult)
    (recon : String → List RiskServiceCalculationResult → Option String)
    (ep : String) (studies : List Study) :
    (PostRiskAssessments env recon ep studies).length = studies.length ∧
    ∀ i : Nat, (PostRiskAssessments env recon ep studies)[i]? =
      (studies[i]?).map (processStudy env recon ep) := by
  unfold PostRiskAssessments
  rw [postLoop_eq]
  simp [List.getElem?_map]

/-- C1: per-study failure isolation — the cycle's output is exactly the
pointwise processing of every study (so a failure of one study never
stops, drops, or alters any other study's SyncResult), and a study that
fails at any per-study stage (identity query construction, transport,
status, decoding, zero or multiple matches, or reconciliation) gets a
SyncResult with a non-nil error and a zero assessment count. -/
theorem c1_per_study_failure_isolation (env : String → HTTPResult)
    (recon : String → List RiskServiceCalculationResult → Option String)
    (ep : String) (studies : List Study) :
    PostRiskAssessments env recon ep studies = studies.map (processStudy env recon ep) ∧
    ∀ s ∈ studies, studyFails env recon ep s = true →
      (processStudy env recon ep s).Error.isSome = true ∧
      (processStudy env recon ep s).RiskAssessmentCount = 0 := by
  constructor
  · unfold PostRiskAssessments
    rw [postLoop_eq]
    simp
  · intro s _ hf
    unfold studyFails at hf
    unfold processStudy
    cases hres : resolvePatient env ep s.ID with
    | error e => simp
    | ok pid =>
      cases hrec : recon pid (s.ToRiskServiceCalculationResults (ep ++ "/Patient/" ++ pid)) with
      | none => rw [hres] at hf; simp [hrec] at hf
      | some e => simp [hrec]

/-- C1 at a concrete input: a study whose patient query matches nobody
gets a SyncResult with an error and a zero count. -/
theorem c1_per_study_failure_isolation_witness :
    (processStudy fixtureEnvNotFound fixtureRecon "http://fhir" fixtureStudy1).Error.isSome
        = true ∧
    (processStudy fixtureEnvNotFound fixtureRecon "http://fhir" fixtureStudy1).RiskAssessmentCount
        = 0 :=
  (c1_per_study_failure_isolation fixtureEnvNotFound fixtureRecon "http://fhir"
    [fixtureStudy1]).2 fixtureStudy1 (List.mem_singleton.mpr rfl) rfl

/-- C10: a record whose study-identifier field is exactly the empty
string bypasses the mismatch check of `Study.AddRecord` entirely: the
call succeeds, appends the record, and leaves the study's ID unchanged —
whatever that ID is. -/
theorem c10_empty_studyid_bypass (s : Study) (r : Record)
    (h : r.StudyID = StudyIDVal.str "") :
    s.AddRecord r = (none, { ID := s.ID, Records := s.Records ++ [r] }) := by
  unfold Study.AddRecord
  simp [h]

/-- C10 at a concrete input: adding an empty-study-id record to the study
with the (different) non-empty ID "1" succeeds and appends. -/
theorem c10_empty_studyid_bypass_witness :
    fixtureStudy1.AddRecord emptyIDRecord = (none, { ID := "1", Records := [emptyIDRecord] }) :=
  c10_empty_studyid_bypass fixtureStudy1 emptyIDRecord rfl

/-- C4 (amended): for a study that already has an ID, and a record whose
study-identifier field is non-empty and whose normalized study ID differs
from the study's, `AddRecord` fails with the error naming both IDs and
leaves the study — ID and record list — unchanged.  (The original claim,
quantified over every record with a differing normalized ID, is refuted
by `c4_counterexample`: the empty-string identifier normalizes to `""`,
differing from any non-empty study ID, yet is appended without error.) -/
theorem c4_mismatch_add_fails (s : Study) (r : Record)
    (hID : s.ID ≠ "") (hr : r.StudyID ≠ StudyIDVal.str "")
    (hne : s.ID ≠ r.StudyIDString) :
    s.AddRecord r =
      (some ("Record with study ID " ++ r.StudyID.sprintfS ++
             " cannot be added to study with ID " ++ s.ID), s) := by
  unfold Study.AddRecord
  simp [hID, hr, hne]

/-- C4 at a concrete input: adding a study-"2" record to study "1" fails
with the mismatch error and changes nothing. -/
theorem c4_mismatch_add_fails_witness :
    fixtureStudy1.AddRecord studyID2Record =
      (some ("Record with study ID " ++ (StudyIDVal.str "2").sprintfS ++
             " cannot be added to study with ID " ++ "1"), fixtureStudy1) :=
  c4_mismatch_add_fails fixtureStudy1 studyID2Record (by decide) (by decide) (by decide)

/-- C4 counterexample: the claim as stated is false.  The study with ID
"1" and the record whose identifier field is the empty string: the
record's normalized study ID `""` differs from `"1"`, yet `AddRecord`
returns no error and the study IS changed by the call (the record is
appended). -/
theorem c4_counterexample :
    emptyIDRecord.StudyIDString ≠ fixtureStudy1.ID ∧
    (fixtureStudy1.AddRecord emptyIDRecord).1 = none ∧
    (fixtureStudy1.AddRecord emptyIDRecord).2 ≠ fixtureStudy1 := by
  refine ⟨by decide, rfl, by decide⟩

theorem toResult_ok_iff_convertible (r : Record) (url : String) :
    exceptOk (r.ToRiskServiceCalculationResult url) = r.convertible := by
  unfold Record.ToRiskServiceCalculationResult Record.ToPie newSlice
    Record.convertible Record.RiskFactorDateTime
  cases hc : r.IsRiskFactorsComplete
  · simp [hc, exceptOk]
  · cases h1 : atoi r.ClinicalRisk <;>
      cases h2 : atoi r.FunctionalRisk <;>
        cases h3 : atoi r.PsychosocialRisk <;>
          cases h4 : atoi r.UtilizationRisk <;>
            cases h5 : parseDate r.RiskFactorDate <;>
              simp [hc, h1, h2, h3, h4, h5, exceptOk]

theorem foldl_convert_eq_filterMap (url : String) :
    ∀ (rs : List Record) (acc : List RiskServiceCalculationResult),
      rs.foldl
        (fun results r =>
          match r.ToRiskServiceCalculationResult url with
          | .ok result => results ++ [result]
          | .error _ => results)
        acc
      = acc ++ rs.filterMap (fun r => (r.ToRiskServiceCalculationResult url).toOption)
  | [], acc => by simp
  | r :: rs, acc => by
    cases h : r.ToRiskServiceCalculationResult url <;>
      simp [h, foldl_convert_eq_filterMap url rs, Except.toOption]

theorem length_filterMap_eq_countP {α β : Type} (f : α → Option β) :
    ∀ l : List α, (l.filterMap f).length = l.countP (fun a => (f a).isSome)
  | [] => rfl
  | a :: l => by
    cases h : f a <;>
      simp [List.filterMap_cons, h, length_filterMap_eq_countP f l, List.countP_cons]

theorem sortResults_eq (results : List RiskServiceCalculationResult) :
    SortResultsByAsOfDate results = results.insertionSort asOfLe := rfl

/-- C3 (amended): `toAssessmentResults` on a Study returns exactly one
result per record whose conversion succeeds — complete AND with all four
category scores parsing as integers AND a parseable date — sorted
ascending by `asOf`.  (The original claim, which counts every complete
record, is refuted by `c3_counterexample`: a complete record with a
non-integer score is silently dropped.) -/
theorem c3_results_count_and_sorted (s : Study) (url : String) :
    (s.ToRiskServiceCalculationResults url).length
        = s.Records.countP (fun r => r.convertible) ∧
    List.Sorted asOfLe (s.ToRiskServiceCalculationResults url) := by
  constructor
  · unfold Study.ToRiskServiceCalculationResults
    rw [sortResults_eq, List.length_insertionSort, foldl_convert_eq_filterMap]
    rw [List.nil_append, length_filterMap_eq_countP]
    congr 1
    funext r
    rw [← toResult_ok_iff_convertible r url]
    cases h : r.ToRiskServiceCalculationResult url <;> simp [h, Except.toOption, exceptOk]
  · unfold Study.ToRiskServiceCalculationResults
    rw [sortResults_eq]
    exact List.sorted_insertionSort asOfLe _

/-- C3 counterexample: the claim as stated is false.  This study contains
N = 1 complete record and M = 0 incomplete records, yet
`toAssessmentResults` returns 0 results, not N: the record is complete
(every field non-empty) but its clinical score "x" does not parse as an
integer, so it is silently dropped. -/
theorem c3_counterexample :
    badScoreStudy.Records.countP (fun r => r.IsRiskFactorsComplete) = 1 ∧
    (badScoreStudy.ToRiskServiceCalculationResults "http://fhir/Patient/1").length = 0 := by
  refine ⟨by decide, by decide⟩

theorem ite_lt_eq_max (a b : Int) : (if a < b then b else a) = max a b := by
  rcases le_or_lt b a with h | h
  · rw [if_neg (not_lt.mpr h), max_eq_left h]
  · rw [if_pos h, max_eq_right h.le]

/-- C5: on a complete record whose four category scores parse as the
integers cv, fv, pv, uv and whose date parses, the conversion yields the
full result with `score` the maximum of the four slice values — computed
as a running max over the slices in category order, so a tie keeps the
first maximal slice. -/
theorem c5_score_is_max_of_slices (r : Record) (url : String)
    (cv fv pv uv : Int) (d : Nat)
    (hc : r.IsRiskFactorsComplete = true)
    (h1 : atoi r.ClinicalRisk = some cv)
    (h2 : atoi r.FunctionalRisk = some fv)
    (h3 : atoi r.PsychosocialRisk = some pv)
    (h4 : atoi r.UtilizationRisk = some uv)
    (hd : parseDate r.RiskFactorDate = some d) :
    r.ToRiskServiceCalculationResult url =
      .ok { AsOf := d,
            Score := some (max (max (max cv fv) pv) uv),
            Pie := { Patient := url,
                     Slices := [{ Name := "Clinical Risk", Weight := 25, MaxValue := 4, Value := cv },
                                { Name := "Functional and Environmental Risk", Weight := 25, MaxValue := 4, Value := fv },
                                { Name := "Psychosocial and Mental Health Risk", Weight := 25, MaxValue := 4, Value := pv },
                                { Name := "Utilization Risk", Weight := 25, MaxValue := 4, Value := uv }] } } := by
  have stepNone : ∀ s : Slice, scoreStep none s = some s.Value := fun _ => rfl
  have stepSome : ∀ (a : Int) (s : Slice), scoreStep (some a) s = some (max a s.Value) := by
    intro a s
    show (if a < s.Value then some s.Value else some a) = some (max a s.Value)
    rw [← ite_lt_eq_max]
    split <;> rfl
  unfold Record.ToRiskServiceCalculationResult Record.ToPie newSlice
    Record.RiskFactorDateTime scoreOfSlices
  simp [hc, h1, h2, h3, h4, hd, List.foldl, stepNone, stepSome]

/-- C5 at a concrete input: the fixture record converts with score
max(3,2,1,3) = 3 (the test asserts score 3 at this record). -/
theorem c5_score_is_max_of_slices_witness :
    fixtureRecord0.ToRiskServiceCalculationResult "http://fhir/Patient/1" =
      .ok { AsOf := 20151207,
            Score := some (max (max (max 3 2) 1) 3),
            Pie := { Patient := "http://fhir/Patient/1",
                     Slices := [{ Name := "Clinical Risk", Weight := 25, MaxValue := 4, Value := 3 },
                                { Name := "Functional and Environmental Risk", Weight := 25, MaxValue := 4, Value := 2 },
                                { Name := "Psychosocial and Mental Health Risk", Weight := 25, MaxValue := 4, Value := 1 },
                                { Name := "Utilization Risk", Weight := 25, MaxValue := 4, Value := 3 }] } } :=
  c5_score_is_max_of_slices fixtureRecord0 "http://fhir/Patient/1" 3 2 1 3 20151207
    (by decide) (by decide) (by decide) (by decide) (by decide) (by decide)

/-- C6: the resolver's error taxonomy.  Zero matches produce the
subject-not-found message naming the study ID; more than one match the
ambiguous-subject message carrying the study ID and the match count; each
of request-construction, transport, non-OK-status and decode failures an
upstream message carrying the study ID and the underlying cause.  The
three kinds stay distinguishable: `resolveErrorKind` maps every message
of each family to its own kind, no matter what data is interpolated. -/
theorem c6_resolver_error_taxonomy :
    (∀ st next sid,
      resolveResponse (.response 200 st (.bundle [] next)) sid
        = .error (subjectNotFoundMsg sid)) ∧
    (∀ st next sid p q rest,
      resolveResponse (.response 200 st (.bundle (p :: q :: rest) next)) sid
        = .error (ambiguousSubjectMsg sid (rest.length + 2))) ∧
    (∀ cause sid, resolveResponse (.reqError cause) sid = .error (reqErrorMsg sid cause)) ∧
    (∀ cause sid, resolveResponse (.netError cause) sid = .error (netErrorMsg sid cause)) ∧
    (∀ code st body sid, code ≠ 200 →
      resolveResponse (.response code st body) sid = .error (statusErrorMsg code st sid)) ∧
    (∀ st cause sid,
      resolveResponse (.response 200 st (.malformed cause)) sid
        = .error (decodeErrorMsg sid cause)) ∧
    (∀ sid, resolveErrorKind (subjectNotFoundMsg sid) = 0) ∧
    (∀ sid n, resolveErrorKind (ambiguousSubjectMsg sid n) = 1) ∧
    (∀ sid cause, resolveErrorKind (reqErrorMsg sid cause) = 2) ∧
    (∀ sid cause, resolveErrorKind (netErrorMsg sid cause) = 2) ∧
    (∀ code st sid, resolveErrorKind (statusErrorMsg code st sid) = 2) ∧
    (∀ sid cause, resolveErrorKind (decodeErrorMsg sid cause) = 2) := by
  refine ⟨fun st next sid => rfl, fun st next sid p q rest => rfl,
    fun cause sid => rfl, fun cause sid => rfl, ?_,
    fun st cause sid => rfl,
    fun sid => rfl, fun sid n => rfl, fun sid cause => rfl,
    fun sid cause => rfl, fun code st sid => rfl, fun sid cause => rfl⟩
  intro code st body sid h
  simp only [resolveResponse]
  rw [if_pos h]

/-- C6 at a concrete input, exercising the one guarded equation (a non-OK
status is reported as an upstream failure). -/
theorem c6_resolver_error_taxonomy_witness :
    resolveResponse (.response 404 "404 Not Found" (.bundle [] none)) "7"
      = .error (statusErrorMsg 404 "404 Not Found" "7") :=
  c6_resolver_error_taxonomy.2.2.2.2.1 404 "404 Not Found" (.bundle [] none) "7" (by decide)

/-- C7 counterexample: the claim as stated is false.  Against the
two-page oracle the code resolves study "1" successfully from the first
page's single entry, even though the bundle carries a "next" link;
following pagination until exhausted, as the spec describes, finds two
subjects and must fail with the ambiguous-subject error.  The resolver
therefore does not follow pagination before deciding the match count. -/
theorem c7_pagination_counterexample :
    resolvePatient twoPageEnv "http://fhir" "1" = .ok "p1" ∧
    resolvePatientSpec twoPageEnv "http://fhir" "1" 2 = .error (ambiguousSubjectMsg "1" 2) ∧
    resolvePatient twoPageEnv "http://fhir" "1" ≠ resolvePatientSpec twoPageEnv "http://fhir" "1" 2 := by
  have h1 : resolvePatient twoPageEnv "http://fhir" "1" = .ok "p1" := rfl
  have h2 : resolvePatientSpec twoPageEnv "http://fhir" "1" 2
      = .error (ambiguousSubjectMsg "1" 2) := rfl
  refine ⟨h1, h2, ?_⟩
  rw [h1, h2]
  exact fun h => Except.noConfusion h

/-- C7 (amended): the resolver issues a single GET for subjects filtered
by identifier and decides the match count from that sole response page:
its outcome is insensitive to the decoded bundle's "next" link and
depends on the oracle only through the one query URL. -/
theorem c7_single_page_resolution :
    (∀ st pids next sid,
      resolveResponse (.response 200 st (.bundle pids next)) sid
        = resolveResponse (.response 200 st (.bundle pids none)) sid) ∧
    (∀ (env env2 : String → HTTPResult) (ep sid : String),
      env (patientQueryURL ep sid) = env2 (patientQueryURL ep sid) →
      resolvePatient env ep sid = resolvePatient env2 ep sid) := by
  constructor
  · intro st pids next sid
    rfl
  · intro env env2 ep sid h
    unfold resolvePatient
    rw [h]

/-- C7 (amended) at a concrete input: two oracles differing everywhere
except at the query URL — in particular in the pages reachable through
"next" links — resolve identically. -/
theorem c7_single_page_resolution_witness :
    resolvePatient twoPageEnv "http://fhir" "1"
      = resolvePatient (fun url =>
          if url = "http://fhir/Patient?identifier=1" then
            .response 200 "200 OK" (.bundle ["p1"] (some "http://fhir/Patient?identifier=1&page=2"))
          else .netError "different route") "http://fhir" "1" :=
  c7_single_page_resolution.2 twoPageEnv _ "http://fhir" "1" (by decide)

/-- C9: pie retrieval.  A malformed identifier is answered with the
400 Bad Request signal, a well-formed identifier with no stored pie with
the 404 Not Found signal — both carry no artifact (the spec's
"not-found signal") — and a well-formed identifier with a stored pie is
answered 200 with exactly that stored pie. -/
theorem c9_pie_retrieval (store : String → Option Pie) (id : String) :
    (IsObjectIdHex id = false →
      getPieHandler store id
          = .badRequest "Bad ID format for requested Pie. Should be a BSON Id" ∧
      signalsNoArtifact (getPieHandler store id) = true) ∧
    (IsObjectIdHex id = true → store id = none →
      getPieHandler store id = .notFound ∧
      signalsNoArtifact (getPieHandler store id) = true) ∧
    (∀ pie, IsObjectIdHex id = true → store id = some pie →
      getPieHandler store id = .ok pie) := by
  refine ⟨fun hm => ?_, fun hw ha => ?_, fun pie hw hs => ?_⟩
  · unfold getPieHandler
    rw [hm]
    exact ⟨rfl, rfl⟩
  · unfold getPieHandler
    rw [hw, ha]
    exact ⟨rfl, rfl⟩
  · unfold getPieHandler
    rw [hw, hs]
    rfl

/-- C9 at concrete inputs: a malformed id, a well-formed absent id, and
the stored id. -/
theorem c9_pie_retrieval_witness :
    getPieHandler fixtureStore "not-a-bson-id"
        = .badRequest "Bad ID format for requested Pie. Should be a BSON Id" ∧
    getPieHandler fixtureStore "aaaaaaaaaaaaaaaaaaaaaaaa" = .notFound ∧
    getPieHandler fixtureStore "56fd63cdac1c5d77f6f695b0" = .ok fixturePie :=
  ⟨((c9_pie_retrieval fixtureStore "not-a-bson-id").1 (by decide)).1,
   ((c9_pie_retrieval fixtureStore "aaaaaaaaaaaaaaaaaaaaaaaa").2.1 (by decide) (by decide)).1,
   (c9_pie_retrieval fixtureStore "56fd63cdac1c5d77f6f695b0").2.2 fixturePie (by decide) (by decide)⟩
